import Mathlib

/-!
# Verification of the distributed file-storage gateway (S1.c, S2.c, S3.c, S4.c)

A shallow embedding of the request handlers of the main server `S1.c` and of
the backend storage nodes `S2.c`/`S3.c`/`S4.c`.  C byte strings are modelled
as `List Char` (all protocol strings are ASCII), socket traffic as lists of
framed fields, and the environment a handler interacts with (file system,
backend node, network) as explicit records of scripted outcomes.  Socket
writes are modelled as succeeding in full; `recv`/`read` results come from
the environment records.
-/

namespace DFS

/-- A C byte string, written as a Lean string literal. -/
def str (s : String) : List Char := s.data

/-- Model of `send(sock, lit, n, 0)` on a NUL-terminated C string literal:
the first `n` bytes of the literal, where the byte at index `strlen` is the
terminating NUL.  Several call sites in the source pass a count that is one
more (including the NUL) or a few less (truncating) than `strlen`. -/
def cbytes (s : String) (n : Nat) : List Char :=
  (s.data ++ List.replicate (n - s.data.length) (Char.ofNat 0)).take n

/-- `strrchr(s, '.')` followed by `ext++` in the handlers: the suffix after
the last dot, or `none` when the string contains no dot. -/
def afterLastDot : List Char → Option (List Char)
  | [] => none
  | c :: rest =>
    match afterLastDot rest with
    | some e => some e
    | none => if c = '.' then some rest else none

/-- Index of the first occurrence of `pat` in `s`: model of `strstr`
(`none` when `pat` does not occur). -/
def firstSubstrIdx (pat : List Char) : List Char → Option Nat
  | [] => if pat = [] then some 0 else none
  | a :: l =>
    if pat.isPrefixOf (a :: l) then some 0
    else (firstSubstrIdx pat l).map (· + 1)

/-- `strstr(s, pat) != NULL`. -/
def hasSubstr (pat s : List Char) : Bool := (firstSubstrIdx pat s).isSome

/-- The tail of `s` after the first occurrence of `pat`: model of
`strstr(s, pat) + strlen(pat)` (`none` when `pat` is absent). -/
def afterSubstr (pat s : List Char) : Option (List Char) :=
  (firstSubstrIdx pat s).map (fun i => s.drop (i + pat.length))

/-- Fuel-indexed worker for `chunks1024`; the fuel is the list length, so the
zero-fuel branch is never reached on the intended call. -/
def chunksGo : Nat → List Char → List (List Char)
  | _, [] => []
  | 0, a :: l => [a :: l]
  | n + 1, a :: l => ((a :: l).take 1024) :: chunksGo n ((a :: l).drop 1024)

/-- The successive chunks of at most `BUFFER_SIZE = 1024` bytes in which the
C send loops transmit file content. -/
def chunks1024 (l : List Char) : List (List Char) :=
  chunksGo l.length l

/-- `strcmp`, restricted to the sign of its result (which is all `qsort` and
the handlers use): `0` on equal strings, otherwise the sign of the byte-wise
difference at the first mismatch, a proper prefix comparing less. -/
def strcmpInt : List Char → List Char → Int
  | [], [] => 0
  | [], _ :: _ => -1
  | _ :: _, [] => 1
  | a :: as, b :: bs =>
    if a = b then strcmpInt as bs else (a.toNat : Int) - (b.toNat : Int)

/-- Byte-wise lexicographic `≤` on byte strings, as the specification words
the secondary sort key. -/
def lexLe : List Char → List Char → Bool
  | [], _ => true
  | _ :: _, [] => false
  | a :: as, b :: bs =>
    if a.toNat < b.toNat then true
    else if a = b then lexLe as bs
    else false

/-- One unit sent on a socket, as the C code frames it: a `long` (8-byte)
field, an `int` (4-byte) field, a single status byte, a single command byte,
or a run of raw bytes (messages and file content). -/
inductive Field where
  | longF (v : Int)
  | intF (v : Int)
  | byteF (v : Int)
  | cmd (c : Char)
  | raw (s : List Char)
  deriving DecidableEq, Repr

/-- Side effects a handler performs besides socket traffic: connecting to a
backend node, and touching local storage (file opens for reading or writing,
deletions, directory checks, and the `system(...)` shell helpers). -/
inductive Action where
  | connectBackend (port : Nat)
  | openFile (path : List Char)
  | writeFile (path : List Char)
  | removeFile (path : List Char)
  | statDir (path : List Char)
  | shellFindCheck
  | shellMkdirTemp
  | shellTar
  | shellMkdirP
  deriving DecidableEq, Repr

/-- Observable outcome of one request handler: the fields sent to the client,
the fields sent to the backend node, the fields read back from the backend,
and the side effects, each in program order. -/
structure HOut where
  client : List Field
  backend : List Field
  bkReads : List Field
  actions : List Action
  deriving DecidableEq, Repr

def PORT_S2 : Nat := 6072
def PORT_S3 : Nat := 6073
def PORT_S4 : Nat := 6074

/-- The `if/else if` chain both `handle_download_request` and
`handle_remove_request` contain for non-`.c` extensions: the port of the
backend node owning the extension, `none` for an unsupported extension. -/
def targetPort (ext : List Char) : Option Nat :=
  if ext = str "pdf" then some PORT_S2
  else if ext = str "txt" then some PORT_S3
  else if ext = str "zip" then some PORT_S4
  else none

/-- Environment of one backend connection attempt: whether `socket()`
creation and the TCP `connect()` succeed. -/
structure ConnEnv where
  socketOk : Bool
  connectOk : Bool
  deriving DecidableEq, Repr

/-- The framed error shape S1 sends the client on its own failure paths:
status `-1` as a `long`, then the message length as an `int`, then the
message bytes. -/
def errFrame (msg : List Char) : List Field :=
  [Field.longF (-1), Field.intF msg.length, Field.raw msg]

/-- `connect_to_target_server` (S1.c): the fields sent to the client on
failure, the connection attempt performed, and whether a backend socket was
obtained.  On `socket()` creation failure the client gets a single bare
22-byte text; on `connect()` refusal it gets the framed error. -/
def connect_to_target_server (port : Nat) (env : ConnEnv) :
    List Field × List Action × Bool :=
  if env.socketOk then
    if env.connectOk then ([], [Action.connectBackend port], true)
    else
      (errFrame (str "EConnection is not reliable"),
       [Action.connectBackend port], false)
  else ([Field.raw (cbytes "EInternal server error" 22)], [], false)

/-- Environment of `handle_download_request`: the gateway's home directory
and local file system, and the scripted backend interaction. -/
structure DlEnv where
  home : List Char
  localFileExists : Bool
  localContent : List Char
  conn : ConnEnv
  bkStatus : Int
  bkMsg : List Char
  bkSize : Int
  bkData : List Char
  deriving DecidableEq, Repr

/-- `handle_download_request` (S1.c).  `.c` paths are served from
`HOME/S1/...`; `.pdf`/`.txt`/`.zip` paths are forwarded over a fresh backend
connection (command byte `'D'`, then the unmodified path); any other
extension is rejected with a bare `EUnsupported file type` text.  On the
remote leg the client receives a proceed status `1` right after the backend
connection succeeds, before the backend's own status byte is read. -/
def handle_download_request (filepath : List Char) (env : DlEnv) : HOut :=
  if filepath = [] then ⟨errFrame (str "EEmpty file path"), [], [], []⟩
  else
    match afterLastDot filepath with
    | none => ⟨errFrame (str "EInvalid file: no extension"), [], [], []⟩
    | some ext =>
      if ext = str "c" then
        match afterSubstr (str "S1/") filepath with
        | none => ⟨errFrame (str "EInvalid path format"), [], [], []⟩
        | some rel =>
          let localPath := env.home ++ str "/S1/" ++ rel
          if env.localFileExists then
            ⟨Field.longF 1 :: Field.longF env.localContent.length ::
               (chunks1024 env.localContent).map Field.raw,
             [], [], [Action.openFile localPath]⟩
          else
            ⟨errFrame (str "EFile not found"), [], [], [Action.openFile localPath]⟩
      else
        match targetPort ext with
        | none => ⟨[Field.raw (cbytes "EUnsupported file type" 22)], [], [], []⟩
        | some port =>
          let c := connect_to_target_server port env.conn
          if c.2.2 then
            if env.bkStatus = -1 then
              ⟨Field.longF 1 :: errFrame env.bkMsg,
               [Field.cmd 'D', Field.intF filepath.length, Field.raw filepath],
               [Field.byteF env.bkStatus, Field.intF env.bkMsg.length,
                Field.raw env.bkMsg],
               c.2.1⟩
            else
              ⟨[Field.longF 1, Field.longF env.bkSize] ++
                 (chunks1024 env.bkData).map Field.raw,
               [Field.cmd 'D', Field.intF filepath.length, Field.raw filepath],
               [Field.byteF env.bkStatus, Field.longF env.bkSize] ++
                 (chunks1024 env.bkData).map Field.raw,
               c.2.1⟩
          else ⟨c.1, [], [], c.2.1⟩

/-- Result of the `remove()` libc call, as distinguished by the handlers'
`errno` switch. -/
inductive RmResult where
  | ok
  | enoent
  | eacces
  | other
  deriving DecidableEq, Repr

/-- The response text the delete handlers pick from `remove()`/`errno`
(S1.c local branch and S2.c/S3.c `handle_remove` use the same table). -/
def rmRespBytes : RmResult → List Char
  | RmResult.ok => cbytes "SFile deleted successfully" 26
  | RmResult.enoent => cbytes "EFile not found" 15
  | RmResult.eacces => cbytes "EPermission denied" 18
  | RmResult.other => cbytes "EFile deletion failed" 21

/-- Environment of `handle_remove_request`. -/
structure RmEnv where
  home : List Char
  rmResult : RmResult
  conn : ConnEnv
  bkResponse : List Char
  deriving DecidableEq, Repr

/-- Path validation of the local branch of `handle_remove_request` (S1.c):
`strstr(filepath, "S1/")` must exist at offset 1 and the path must begin
with `~S1/`. -/
def removeLocalValid (p : List Char) : Bool :=
  match firstSubstrIdx (str "S1/") p with
  | none => false
  | some i => i == 1 && (str "~S1/").isPrefixOf p

/-- `handle_remove_request` (S1.c).  `.c` paths are unlinked locally (after a
proceed status `1` is sent); `.pdf`/`.txt`/`.zip` paths are forwarded
(command byte `'R'`, then the unmodified path) and the backend's single
response buffer is relayed verbatim, except that a zero-byte backend
response is replaced by the 31-byte `ENo response from storage server`
text; any other extension gets a bare `EUnsupported file type` text. -/
def handle_remove_request (filepath : List Char) (env : RmEnv) : HOut :=
  if filepath = [] then ⟨[Field.raw (cbytes "EEmpty file path" 16)], [], [], []⟩
  else
    match afterLastDot filepath with
    | none => ⟨[Field.raw (cbytes "EInvalid file: no extension" 27)], [], [], []⟩
    | some ext =>
      if ext = str "c" then
        if removeLocalValid filepath then
          let rel := (afterSubstr (str "S1/") filepath).getD []
          let localPath := env.home ++ str "/S1/" ++ rel
          ⟨[Field.longF 1, Field.raw (rmRespBytes env.rmResult)],
           [], [], [Action.removeFile localPath]⟩
        else
          ⟨[Field.raw (cbytes "EPath must be in format: ~S1/..." 33)], [], [], []⟩
      else
        match targetPort ext with
        | none => ⟨[Field.raw (cbytes "EUnsupported file type" 22)], [], [], []⟩
        | some port =>
          let c := connect_to_target_server port env.conn
          if c.2.2 then
            if env.bkResponse = [] then
              ⟨[Field.longF 1,
                Field.raw (cbytes "ENo response from storage server" 31)],
               [Field.cmd 'R', Field.intF filepath.length, Field.raw filepath],
               [], c.2.1⟩
            else
              ⟨[Field.longF 1, Field.raw env.bkResponse],
               [Field.cmd 'R', Field.intF filepath.length, Field.raw filepath],
               [Field.raw env.bkResponse], c.2.1⟩
          else ⟨c.1, [], [], c.2.1⟩

/-- Environment of `handle_upload_request`. -/
structure UpEnv where
  home : List Char
  fopenOk : Bool
  conn : ConnEnv
  deriving DecidableEq, Repr

/-- `send_file_to_server` (S1.c): opens its own socket to the given storage
node and sends `'U' + path_len + path + size + data`; returns `1` on success
and `-1` on socket or connect failure (the write loop is modelled as sending
the whole buffer at once). -/
def send_file_to_server (port : Nat) (filedata moddest : List Char)
    (conn : ConnEnv) : Int × List Field × List Action :=
  if conn.socketOk then
    if conn.connectOk then
      (1,
       [Field.cmd 'U', Field.intF moddest.length, Field.raw moddest,
        Field.longF filedata.length, Field.raw filedata],
       [Action.connectBackend port])
    else (-1, [], [Action.connectBackend port])
  else (-1, [], [])

/-- `handle_upload_request` (S1.c).  `filedata` is the body already read from
the client socket (the handler always drains it before looking at the
extension).  `.pdf`/`.txt`/`.zip` files are forwarded with
`send_file_to_server`; `.c` files are written under `HOME/S1` after a
`mkdir -p`; any other filename leaves `result = 0`, which selects the
generic `Error sending file to destination server.` response (each response
is written with `strlen + 1` bytes, so the terminating NUL is included). -/
def handle_upload_request (filename destPath filedata : List Char)
    (env : UpEnv) : HOut :=
  let extDot := (afterLastDot filename).map (fun e => '.' :: e)
  let moddest :=
    if (str "~S1").isPrefixOf destPath then destPath.drop 3 ++ '/' :: filename
    else destPath ++ '/' :: filename
  let r : Int × List Field × List Action :=
    if extDot = some (str ".pdf") then
      send_file_to_server PORT_S2 filedata moddest env.conn
    else if extDot = some (str ".txt") then
      send_file_to_server PORT_S3 filedata moddest env.conn
    else if extDot = some (str ".zip") then
      send_file_to_server PORT_S4 filedata moddest env.conn
    else if extDot = some (str ".c") then
      let fullpath := env.home ++ str "/S1" ++ destPath.drop 3 ++ '/' :: filename
      if env.fopenOk then (1, [], [Action.shellMkdirP, Action.writeFile fullpath])
      else (-1, [], [Action.shellMkdirP, Action.writeFile fullpath])
    else (0, [], [])
  let resp :=
    if r.1 = 1 then cbytes "File uploaded successfully." 28
    else if r.1 = -1 then cbytes "Error processing the file." 27
    else cbytes "Error sending file to destination server." 42
  ⟨[Field.raw resp], r.2.1, [], r.2.2⟩

/-- Environment of `handle_downloadtar_request`: the local `.c` archiving
pipeline and the scripted backend interaction for `pdf`/`txt`. -/
structure TarEnv where
  home : List Char
  s1DirExists : Bool
  hasCFiles : Bool
  mkdirOk : Bool
  tarCmdOk : Bool
  tarOpenOk : Bool
  tarData : List Char
  conn : ConnEnv
  bkStatus1 : Int
  bkMsg : List Char
  bkTarSize : Int
  bkMsg2 : List Char
  bkData : List Char
  deriving DecidableEq, Repr

/-- `handle_downloadtar_request` (S1.c).  Only `c`, `pdf` and `txt` pass the
initial validation; `c` is archived locally (every local failure is sent as
the framed status/length/message error), `pdf` goes to S2 and `txt` to S3
with command byte `'T'`.  On the remote leg the backend's `long` status is
propagated to the client before anything else is read; the size field is
read from the backend only when that status is not `-1`; if the size itself
is negative the relayed message is sent without a length field. -/
def handle_downloadtar_request (filetype : List Char) (env : TarEnv) : HOut :=
  if filetype = [] ∨
      (filetype ≠ str "c" ∧ filetype ≠ str "pdf" ∧ filetype ≠ str "txt") then
    ⟨[Field.raw (cbytes "EInvalid filetype (use: c, pdf, txt)" 35)], [], [], []⟩
  else if filetype = str "c" then
    let s1dir := env.home ++ str "/S1"
    if env.s1DirExists then
      if env.hasCFiles then
        if env.mkdirOk then
          if env.tarCmdOk then
            if env.tarOpenOk then
              ⟨Field.longF 1 :: Field.longF env.tarData.length ::
                 (chunks1024 env.tarData).map Field.raw,
               [], [],
               [Action.statDir s1dir, Action.shellFindCheck,
                Action.shellMkdirTemp, Action.shellTar,
                Action.openFile (str "server_temp/cfiles.tar")]⟩
            else
              ⟨errFrame (str "ETar creation failed"), [], [],
               [Action.statDir s1dir, Action.shellFindCheck,
                Action.shellMkdirTemp, Action.shellTar,
                Action.openFile (str "server_temp/cfiles.tar")]⟩
          else
            ⟨errFrame (str "ETar creation failed"), [], [],
             [Action.statDir s1dir, Action.shellFindCheck,
              Action.shellMkdirTemp, Action.shellTar]⟩
        else
          ⟨errFrame (str "ECould not create temp directory"), [], [],
           [Action.statDir s1dir, Action.shellFindCheck, Action.shellMkdirTemp]⟩
      else
        ⟨errFrame (str "ENo .c files found in S1 directory"), [], [],
         [Action.statDir s1dir, Action.shellFindCheck]⟩
    else
      ⟨errFrame (str "ES1 directory not found"), [], [], [Action.statDir s1dir]⟩
  else
    let port := if filetype = str "pdf" then PORT_S2 else PORT_S3
    let c := connect_to_target_server port env.conn
    if c.2.2 then
      let sentT := [Field.cmd 'T', Field.intF filetype.length, Field.raw filetype]
      if env.bkStatus1 = -1 then
        ⟨[Field.longF env.bkStatus1, Field.intF env.bkMsg.length,
          Field.raw env.bkMsg],
         sentT,
         [Field.longF env.bkStatus1, Field.intF env.bkMsg.length,
          Field.raw env.bkMsg],
         c.2.1⟩
      else if env.bkTarSize < 0 then
        ⟨[Field.longF env.bkStatus1, Field.raw env.bkMsg2],
         sentT,
         [Field.longF env.bkStatus1, Field.longF env.bkTarSize,
          Field.intF env.bkMsg2.length, Field.raw env.bkMsg2],
         c.2.1⟩
      else
        ⟨[Field.longF env.bkStatus1, Field.longF env.bkTarSize] ++
           (chunks1024 env.bkData).map Field.raw,
         sentT,
         [Field.longF env.bkStatus1, Field.longF env.bkTarSize] ++
           (chunks1024 env.bkData).map Field.raw,
         c.2.1⟩
    else ⟨c.1, [], [], c.2.1⟩

/-- Environment of S2's `handle_downloadtar`. -/
structure S2TarEnv where
  dirExists : Bool
  hasPdfFiles : Bool
  mkdirOk : Bool
  tarCmdOk : Bool
  tarOpenOk : Bool
  tarData : List Char
  deriving DecidableEq, Repr

/-- `handle_downloadtar` (S2.c): the fields this backend sends to S1 for a
tar request on `filetype`.  The wrong-filetype, missing-directory,
no-matching-files and tar-open failures are framed (status `-1`, length,
message); the temp-directory-creation and tar-command failures send a single
bare truncated text with no status field at all. -/
def s2_handle_downloadtar (filetype : List Char) (env : S2TarEnv) : List Field :=
  if filetype ≠ str "pdf" then
    errFrame (str "EWrong filetype for this server")
  else if ¬ env.dirExists then
    errFrame (str "ES1 directory not found")
  else if ¬ env.hasPdfFiles then
    errFrame (str "ENo .pdf files found in S1 directory")
  else if ¬ env.mkdirOk then
    [Field.raw (cbytes "ECould not create temp directory" 31)]
  else if ¬ env.tarCmdOk then
    [Field.raw (cbytes "ETar creation failed" 19)]
  else if ¬ env.tarOpenOk then
    errFrame (str "ETar file not found")
  else
    Field.longF 1 :: Field.longF env.tarData.length ::
      (chunks1024 env.tarData).map Field.raw

/-- Environment of S2's `handle_remove`. -/
structure S2RmEnv where
  home : List Char
  rmResult : RmResult
  deriving DecidableEq, Repr

/-- `handle_remove` (S2.c), after the path has been received from S1 (the
path-length plausibility checks that precede are not modelled): the reply
fields and the deletions performed.  A path containing `../` or `/..` is
rejected before anything touches the disk. -/
def s2_handle_remove (filepath : List Char) (env : S2RmEnv) :
    List Field × List Action :=
  if hasSubstr (str "../") filepath || hasSubstr (str "/..") filepath then
    ([Field.raw (cbytes "EPath traversal not allowed" 26)], [])
  else if ¬ (str "~S1/").isPrefixOf filepath then
    ([Field.raw (cbytes "EPath must start with ~S1/" 25)], [])
  else
    let rel := (afterSubstr (str "S1/") filepath).getD []
    let localPath := env.home ++ str "/S2/" ++ rel
    ([Field.raw (rmRespBytes env.rmResult)], [Action.removeFile localPath])

/-- Environment of S4's handlers. -/
structure S4Env where
  dlFileExists : Bool
  dlData : List Char
  lsNames : List (List Char)
  deriving DecidableEq, Repr

/-- Reply of S4's `handle_download`: a single status byte, then either the
framed error message or the size and content. -/
def s4_handle_download (env : S4Env) : List Field :=
  if env.dlFileExists then
    Field.byteF 1 :: Field.longF env.dlData.length ::
      (chunks1024 env.dlData).map Field.raw
  else
    [Field.byteF (-1), Field.intF (str "EFile not found").length,
     Field.raw (str "EFile not found")]

/-- Reply of S4's `handle_listing` (every failure path and the empty listing
send a single `long` status `0`; the path-receive failure paths are folded
into the empty case). -/
def s4_handle_listing (env : S4Env) : List Field :=
  if env.lsNames = [] then [Field.longF 0]
  else
    Field.longF 1 :: Field.intF env.lsNames.length ::
      (env.lsNames.map (fun n => [Field.intF n.length, Field.raw n])).flatten

/-- The command dispatcher in S4's `main` (S4.c): only `'U'`, `'D'` and
`'L'` are handled; every other command byte falls to the `default:` arm,
which sends nothing back before the connection is closed (`handle_upload`
also sends no reply bytes). -/
def s4_dispatch (cmdByte : Char) (env : S4Env) : List Field :=
  if cmdByte = 'U' then []
  else if cmdByte = 'D' then s4_handle_download env
  else if cmdByte = 'L' then s4_handle_listing env
  else []

/-- Little-endian base-256 encoding of `v mod 2^(8*w)` in `w` bytes: the
on-the-wire form of the fixed-width integer fields on the x86-64 hosts the
code targets. -/
def leBytes (w : Nat) (v : Int) : List Char :=
  (List.range w).map
    (fun i => Char.ofNat (((v % (2 ^ (8 * w))).toNat / 256 ^ i) % 256))

/-- The raw bytes a field sequence puts on the socket. -/
def wireBytes : List Field → List Char
  | [] => []
  | Field.longF v :: r => leBytes 8 v ++ wireBytes r
  | Field.intF v :: r => leBytes 4 v ++ wireBytes r
  | Field.byteF v :: r => leBytes 1 v ++ wireBytes r
  | Field.cmd c :: r => c :: wireBytes r
  | Field.raw s :: r => s ++ wireBytes r

/-- `FileEntry` (S1.c): one collected listing entry. -/
structure FileEntry where
  filename : List Char
  ext : List Char
  deriving DecidableEq, Repr

/-- The rank an extension gets from the `ext_order` scan in `compare_files`;
extensions outside the table keep the initial rank `0`. -/
def extRank (e : List Char) : Nat :=
  if e = str ".c" then 0
  else if e = str ".pdf" then 1
  else if e = str ".txt" then 2
  else if e = str ".zip" then 3
  else 0

/-- `compare_files` (S1.c): primary key the extension rank, secondary key
`strcmp` on the filename. -/
def compare_files (a b : FileEntry) : Int :=
  if extRank a.ext ≠ extRank b.ext then
    (extRank a.ext : Int) - (extRank b.ext : Int)
  else strcmpInt a.filename b.filename

/-- The non-strict comparator relation `qsort` sorts by. -/
def cmpFilesLe (a b : FileEntry) : Prop := compare_files a b ≤ 0

instance : DecidableRel cmpFilesLe := fun a b => Int.decLe (compare_files a b) 0

/-- The `qsort(files, count, sizeof(FileEntry), compare_files)` call in
`handle_pathname_request`, modelled as a comparison sort over the same
comparator. -/
def sortFiles (files : List FileEntry) : List FileEntry :=
  List.insertionSort cmpFilesLe files

/-- The tail of `handle_pathname_request` (S1.c): sort the collected entries,
then send status `1`, the count, and each filename length-prefixed, in
sorted order. -/
def pathname_reply (files : List FileEntry) : List Field :=
  Field.longF 1 :: Field.intF files.length ::
    ((sortFiles files).map
      (fun f => [Field.intF f.filename.length, Field.raw f.filename])).flatten

/-- The ordering law stated by the specification: primary key the extension
rank in the fixed order `.c`, `.pdf`, `.txt`, `.zip`, secondary key the
byte-wise lexicographic order on the filename. -/
def specFileLe (a b : FileEntry) : Prop :=
  extRank a.ext < extRank b.ext ∨
    (extRank a.ext = extRank b.ext ∧ lexLe a.filename b.filename = true)

/-- The two client-visible reply shapes the specification documents for a
single request: success status, size, content chunks; or failure status,
message length, message. -/
def documentedShape (t : List Field) : Prop :=
  (∃ sz chunks, t = Field.longF 1 :: Field.longF sz :: List.map Field.raw chunks) ∨
    (∃ msg : List Char,
      t = [Field.longF (-1), Field.intF msg.length, Field.raw msg])

/-- The framed-error reply shape of §4.3: failure status, message length,
non-empty message. -/
def framedErrShape (t : List Field) : Prop :=
  ∃ msg : List Char, msg ≠ [] ∧
    t = [Field.longF (-1), Field.intF msg.length, Field.raw msg]

/-- A backend tar reply that leads with a status field, as documented:
failure status plus framed message, or success status, size and content. -/
def backendTarShape (t : List Field) : Prop :=
  (∃ msg : List Char,
      t = [Field.longF (-1), Field.intF msg.length, Field.raw msg]) ∨
    (∃ sz chunks, t = Field.longF 1 :: Field.longF sz :: List.map Field.raw chunks)

/-- Whether a field is a `long`-width field (the width statuses and sizes
are sent with). -/
def isLongField : Field → Bool
  | Field.longF _ => true
  | _ => false

/-- The request path `~S1/../x.c`, whose second segment is a `..` traversal
segment. -/
def travPath : List Char := str "~S1/../x.c"

/-- Download environment in which `HOME/S1/../x.c` exists with content
`int x;`. -/
def dlTravEnv : DlEnv :=
  ⟨str "/home/u", true, str "int x;", ⟨true, true⟩, 0, [], 0, []⟩

/-- Download environment for a remote Retrieve whose backend reports
file-not-found. -/
def dlRemoteNfEnv : DlEnv :=
  ⟨str "/home/u", false, [], ⟨true, true⟩, -1, str "EFile not found", 0, []⟩

/-- Upload environment with a working local store and reachable backends. -/
def upCexEnv : UpEnv := ⟨str "/home/u", true, ⟨true, true⟩⟩

/-- S2 tar environment in which `mkdir server_temp` fails (for example
because the directory is left over from an earlier request). -/
def s2TarCexEnv : S2TarEnv := ⟨true, true, false, true, true, []⟩

def c1EnvL : DlEnv := ⟨str "/home/u", true, str "hi", ⟨true, true⟩, 0, [], 0, []⟩

def c1EnvR : DlEnv := ⟨str "/home/u", false, [], ⟨true, true⟩, 1, [], 2, str "ab"⟩

def c1EnvU : DlEnv := ⟨str "/home/u", false, [], ⟨true, true⟩, 0, [], 0, []⟩

def c1RmU : RmEnv := ⟨str "/home/u", RmResult.ok, ⟨true, true⟩, str "x"⟩

def c1Up : UpEnv := ⟨str "/home/u", true, ⟨true, true⟩⟩

def c1RmM : RmEnv := ⟨str "/home/u", RmResult.ok, ⟨true, true⟩, []⟩

def c1RmR : RmEnv := ⟨str "/home/u", RmResult.ok, ⟨true, true⟩, str "x"⟩

def c1UpC : UpEnv := ⟨str "/home/u", true, ⟨true, true⟩⟩

def c1UpR : UpEnv := ⟨str "/home/u", true, ⟨true, true⟩⟩

def c3EnvL : DlEnv := ⟨str "/home/u", true, str "hi", ⟨true, true⟩, 0, [], 0, []⟩

def c3EnvF : DlEnv :=
  ⟨str "/home/u", false, [], ⟨true, true⟩, -1, str "EFile not found", 0, []⟩

def c3EnvS : DlEnv := ⟨str "/home/u", false, [], ⟨true, true⟩, 1, [], 2, str "ab"⟩

def c3EnvM : RmEnv := ⟨str "/home/u", RmResult.ok, ⟨true, true⟩, []⟩

def c3EnvD : RmEnv :=
  ⟨str "/home/u", RmResult.ok, ⟨true, true⟩, str "SFile deleted successfully"⟩

def c6EnvA : DlEnv := ⟨str "/home/u", false, [], ⟨true, true⟩, 0, [], 0, []⟩

def c6EnvB : DlEnv := ⟨str "/home/u", true, str "hi", ⟨true, true⟩, 0, [], 0, []⟩

def c7EnvS2 : S2TarEnv := ⟨true, true, true, true, true, str "tt"⟩

def c7EnvF : TarEnv :=
  ⟨str "/home/u", true, true, true, true, true, [], ⟨true, true⟩,
   -1, str "ENo .pdf files found in S1 directory", 0, [], []⟩

def c7EnvS : TarEnv :=
  ⟨str "/home/u", true, true, true, true, true, [], ⟨true, true⟩,
   1, [], 2, [], str "ab"⟩

def c8EnvZ : TarEnv :=
  ⟨str "/home/u", true, true, true, true, true, [], ⟨true, true⟩, 1, [], 0, [], []⟩

def c8EnvC : TarEnv :=
  ⟨str "/home/u", false, true, true, true, true, [], ⟨true, true⟩, 1, [], 0, [], []⟩

def c8EnvP : TarEnv :=
  ⟨str "/home/u", true, true, true, true, true, [], ⟨true, true⟩, 1, [], 0, [], []⟩

def c9EnvA : RmEnv :=
  ⟨str "/home/u", RmResult.ok, ⟨true, true⟩, str "SFile deleted successfully"⟩

def c9EnvB : RmEnv := ⟨str "/home/u", RmResult.ok, ⟨true, true⟩, []⟩

def c10S4Env : S4Env := ⟨false, [], []⟩

def c10RmEnv : RmEnv := ⟨str "/home/u", RmResult.ok, ⟨true, true⟩, []⟩

theorem chunksGo_join :
    ∀ (n : Nat) (l : List Char), l.length ≤ n → (chunksGo n l).flatten = l := by
  intro n
  induction n with
  | zero =>
    intro l hl
    cases l with
    | nil => simp [chunksGo]
    | cons a t => simp at hl
  | succ m ih =>
    intro l hl
    cases l with
    | nil => simp [chunksGo]
    | cons a t =>
      have hdrop : ((a :: t).drop 1024).length ≤ m := by
        simp only [List.length_drop, List.length_cons]
        simp only [List.length_cons] at hl
        omega
      simp only [chunksGo, List.flatten_cons, ih _ hdrop]
      exact List.take_append_drop 1024 (a :: t)

theorem chunksGo_le :
    ∀ (n : Nat) (l : List Char), ∀ c ∈ chunksGo n l, l.length ≤ n → c.length ≤ 1024 := by
  intro n
  induction n with
  | zero =>
    intro l c hc hl
    cases l with
    | nil => simp [chunksGo] at hc
    | cons a t => simp at hl
  | succ m ih =>
    intro l c hc hl
    cases l with
    | nil => simp [chunksGo] at hc
    | cons a t =>
      simp only [chunksGo, List.mem_cons] at hc
      rcases hc with h | h
      · subst h
        simp [List.length_take]
      · have hdrop : ((a :: t).drop 1024).length ≤ m := by
          simp only [List.length_drop, List.length_cons]
          simp only [List.length_cons] at hl
          omega
        exact ih _ c h hdrop

theorem chunks1024_join (l : List Char) : (chunks1024 l).flatten = l :=
  chunksGo_join l.length l (Nat.le_refl _)

theorem chunks1024_le (l : List Char) : ∀ c ∈ chunks1024 l, c.length ≤ 1024 :=
  fun c hc => chunksGo_le l.length l c hc (Nat.le_refl _)

/-- Two characters with the same byte value are equal. -/
theorem char_toNat_inj {a b : Char} (h : a.toNat = b.toNat) : a = b := by
  have hv : a.val = b.val := by
    apply UInt32.eq_of_toBitVec_eq
    apply BitVec.eq_of_toNat_eq
    exact h
  exact Char.eq_of_val_eq hv

theorem strcmpInt_le_iff_lexLe (a b : List Char) :
    strcmpInt a b ≤ 0 ↔ lexLe a b = true := by
  induction a generalizing b with
  | nil => cases b <;> simp [strcmpInt, lexLe]
  | cons x xs ih =>
    cases b with
    | nil => simp [strcmpInt, lexLe]
    | cons y ys =>
      by_cases hxy : x = y
      · subst hxy
        simp [strcmpInt, lexLe, ih]
      · have hne : x.toNat ≠ y.toNat := fun h => hxy (char_toNat_inj h)
        by_cases hlt : x.toNat < y.toNat
        · simp [strcmpInt, lexLe, hxy, hlt]
          omega
        · simp [strcmpInt, lexLe, hxy, hlt]
          omega

theorem lexLe_total (a b : List Char) : lexLe a b = true ∨ lexLe b a = true := by
  induction a generalizing b with
  | nil => left; simp [lexLe]
  | cons x xs ih =>
    cases b with
    | nil => right; simp [lexLe]
    | cons y ys =>
      rcases Nat.lt_trichotomy x.toNat y.toNat with h | h | h
      · left; simp [lexLe, h]
      · have hxy : x = y := char_toNat_inj h
        subst hxy
        rcases ih ys with h2 | h2
        · left; simp [lexLe, h2]
        · right; simp [lexLe, h2]
      · right; simp [lexLe, h]

theorem lexLe_trans {a b c : List Char} (h1 : lexLe a b = true)
    (h2 : lexLe b c = true) : lexLe a c = true := by
  induction a generalizing b c with
  | nil => simp [lexLe]
  | cons x xs ih =>
    cases b with
    | nil => simp [lexLe] at h1
    | cons y ys =>
      cases c with
      | nil => simp [lexLe] at h2
      | cons z zs =>
        simp only [lexLe] at h1 h2 ⊢
        by_cases hxy : x.toNat < y.toNat
        · by_cases hyz : y.toNat < z.toNat
          · simp [show x.toNat < z.toNat by omega]
          · rw [if_neg hyz] at h2
            by_cases hyz' : y = z
            · subst hyz'
              simp [hxy]
            · simp [hyz'] at h2
        · rw [if_neg hxy] at h1
          by_cases hxy' : x = y
          · subst hxy'
            rw [if_pos rfl] at h1
            by_cases hyz : x.toNat < z.toNat
            · simp [hyz]
            · rw [if_neg hyz] at h2 ⊢
              by_cases hyz' : x = z
              · rw [if_pos hyz'] at h2 ⊢
                exact ih h1 h2
              · simp [hyz'] at h2
          · simp [hxy'] at h1

theorem compare_files_le_iff (a b : FileEntry) :
    cmpFilesLe a b ↔ specFileLe a b := by
  unfold cmpFilesLe compare_files specFileLe
  by_cases h : extRank a.ext = extRank b.ext
  · rw [if_neg (fun hne => hne h)]
    constructor
    · intro hle
      exact Or.inr ⟨h, (strcmpInt_le_iff_lexLe _ _).mp hle⟩
    · rintro (hlt | ⟨_, hlex⟩)
      · omega
      · exact (strcmpInt_le_iff_lexLe _ _).mpr hlex
  · rw [if_pos h]
    constructor
    · intro hle
      left
      omega
    · rintro (hlt | ⟨heq, _⟩)
      · omega
      · exact absurd heq h

/-- Consing the same head preserves inequality of tails. -/
theorem cons_ne_of_ne {a : Char} {e f : List Char} (h : e ≠ f) :
    a :: e ≠ a :: f := by
  intro hh
  rw [List.cons.injEq] at hh
  exact h hh.2

/-- C2: the merged List response orders all collected entries by primary key
extension rank in the fixed order `.c`, `.pdf`, `.txt`, `.zip` and by
secondary key byte-wise lexicographic filename: the sorted list is a
permutation of the collected multiset and is sorted by that law, and the
spec's example `b.c, a.c, z.pdf, m.txt` comes out as
`a.c, b.c, z.pdf, m.txt`. -/
theorem C2_list_merge_sorted (files : List FileEntry) :
    List.Perm (sortFiles files) files ∧
    List.Sorted specFileLe (sortFiles files) ∧
    sortFiles
        [⟨str "b.c", str ".c"⟩, ⟨str "a.c", str ".c"⟩,
         ⟨str "z.pdf", str ".pdf"⟩, ⟨str "m.txt", str ".txt"⟩] =
      [⟨str "a.c", str ".c"⟩, ⟨str "b.c", str ".c"⟩,
       ⟨str "z.pdf", str ".pdf"⟩, ⟨str "m.txt", str ".txt"⟩] := by
  haveI : IsTotal FileEntry cmpFilesLe := by
    constructor
    intro a b
    by_cases h : extRank a.ext = extRank b.ext
    · rcases lexLe_total a.filename b.filename with hl | hl
      · exact Or.inl ((compare_files_le_iff a b).mpr (Or.inr ⟨h, hl⟩))
      · exact Or.inr ((compare_files_le_iff b a).mpr (Or.inr ⟨h.symm, hl⟩))
    · by_cases hlt : extRank a.ext < extRank b.ext
      · exact Or.inl ((compare_files_le_iff a b).mpr (Or.inl hlt))
      · exact Or.inr ((compare_files_le_iff b a).mpr (Or.inl (by omega)))
  haveI : IsTrans FileEntry cmpFilesLe := by
    constructor
    intro a b c hab hbc
    rw [compare_files_le_iff] at hab hbc ⊢
    rcases hab with h1 | ⟨e1, l1⟩ <;> rcases hbc with h2 | ⟨e2, l2⟩
    · exact Or.inl (by omega)
    · exact Or.inl (by omega)
    · exact Or.inl (by omega)
    · exact Or.inr ⟨by omega, lexLe_trans l1 l2⟩
  refine ⟨List.perm_insertionSort cmpFilesLe files, ?_, by decide⟩
  have hs := List.sorted_insertionSort cmpFilesLe files
  exact List.Pairwise.imp (fun h => (compare_files_le_iff _ _).mp h) hs

theorem C2_list_merge_sorted_witness :
    List.Perm
      (sortFiles [⟨str "b.c", str ".c"⟩, ⟨str "z.pdf", str ".pdf"⟩])
      [⟨str "b.c", str ".c"⟩, ⟨str "z.pdf", str ".pdf"⟩] ∧
    List.Sorted specFileLe
      (sortFiles [⟨str "b.c", str ".c"⟩, ⟨str "z.pdf", str ".pdf"⟩]) ∧
    sortFiles
        [⟨str "b.c", str ".c"⟩, ⟨str "a.c", str ".c"⟩,
         ⟨str "z.pdf", str ".pdf"⟩, ⟨str "m.txt", str ".txt"⟩] =
      [⟨str "a.c", str ".c"⟩, ⟨str "b.c", str ".c"⟩,
       ⟨str "z.pdf", str ".pdf"⟩, ⟨str "m.txt", str ".txt"⟩] :=
  C2_list_merge_sorted [⟨str "b.c", str ".c"⟩, ⟨str "z.pdf", str ".pdf"⟩]

/-- C5 counterexample: on `socket()` creation failure the gateway sends the
client a single bare 22-byte text — not the framed status/length/message
error the claim requires for every backend-unreachable case. -/
theorem C5_counterexample :
    (connect_to_target_server PORT_S2 ⟨false, false⟩).1 =
      [Field.raw (cbytes "EInternal server error" 22)] ∧
    ¬ framedErrShape [Field.raw (cbytes "EInternal server error" 22)] := by
  constructor
  · rfl
  · rintro ⟨msg, hne, h⟩
    simp at h

/-- C5 (amended): on TCP connect refusal the client does receive the
complete framed error — failure status `-1`, message length, non-empty
message — and no backend socket is obtained; on `socket()` creation failure
the gateway instead sends a bare unframed text (see the counterexample). -/
theorem C5_connect_refusal_framed (prt : Nat) (env : ConnEnv)
    (hs : env.socketOk = true) (hc : env.connectOk = false) :
    (connect_to_target_server prt env).1 =
      errFrame (str "EConnection is not reliable") ∧
    framedErrShape (connect_to_target_server prt env).1 ∧
    (connect_to_target_server prt env).2.2 = false := by
  have hv : connect_to_target_server prt env =
      (errFrame (str "EConnection is not reliable"),
       [Action.connectBackend prt], false) := by
    unfold connect_to_target_server
    rw [hs, hc]
    simp
  rw [hv]
  exact ⟨rfl, ⟨str "EConnection is not reliable", by decide, rfl⟩, rfl⟩

theorem C5_connect_refusal_framed_witness :
    (⟨true, false⟩ : ConnEnv).socketOk = true ∧
    (⟨true, false⟩ : ConnEnv).connectOk = false ∧
    ((connect_to_target_server PORT_S3 ⟨true, false⟩).1 =
        errFrame (str "EConnection is not reliable") ∧
      framedErrShape (connect_to_target_server PORT_S3 ⟨true, false⟩).1 ∧
      (connect_to_target_server PORT_S3 ⟨true, false⟩).2.2 = false) :=
  ⟨rfl, rfl, C5_connect_refusal_framed PORT_S3 ⟨true, false⟩ rfl rfl⟩

/-- C4: traversal rejection is not uniform.  The backend delete path
(`handle_remove` in S2.c) explicitly rejects `~S1/../x.c` before touching
the disk, but the gateway's Retrieve path (`handle_download_request` in
S1.c) performs no traversal check at all: it opens `HOME/S1/../x.c` —
escaping the storage root — and serves its bytes to the client. -/
theorem C4_traversal_gap :
    (s2_handle_remove travPath ⟨str "/home/u", RmResult.ok⟩).1 =
      [Field.raw (cbytes "EPath traversal not allowed" 26)] ∧
    (s2_handle_remove travPath ⟨str "/home/u", RmResult.ok⟩).2 = [] ∧
    (handle_download_request travPath dlTravEnv).actions =
      [Action.openFile (str "/home/u/S1/../x.c")] ∧
    (handle_download_request travPath dlTravEnv).client =
      Field.longF 1 :: Field.longF (str "int x;").length ::
        (chunks1024 (str "int x;")).map Field.raw := by
  exact ⟨by decide, by decide, by decide, by decide⟩

/-- C6: for a local Retrieve (`.c` path resolving under the S1 root): when
the file is missing the client gets the failure status, the message length
and the message, and no further `long`-width (size) field; when it exists
the client gets success status `1`, the file size, and the full content in
chunks of at most 1024 bytes whose concatenation is exactly the file. -/
theorem C6_local_retrieve (p rel : List Char) (envA envB : DlEnv)
    (hext : afterLastDot p = some (str "c"))
    (hrel : afterSubstr (str "S1/") p = some rel)
    (hA : envA.localFileExists = false)
    (hB : envB.localFileExists = true) :
    ((handle_download_request p envA).client = errFrame (str "EFile not found") ∧
      ∀ f ∈ ((handle_download_request p envA).client).tail,
        isLongField f = false) ∧
    ((handle_download_request p envB).client =
        Field.longF 1 :: Field.longF envB.localContent.length ::
          (chunks1024 envB.localContent).map Field.raw ∧
      (chunks1024 envB.localContent).flatten = envB.localContent ∧
      ∀ ch ∈ chunks1024 envB.localContent, ch.length ≤ 1024) := by
  have hpne : p ≠ [] := by
    intro h
    rw [h] at hext
    simp [afterLastDot] at hext
  have hAeq : handle_download_request p envA =
      ⟨errFrame (str "EFile not found"), [], [],
       [Action.openFile (envA.home ++ str "/S1/" ++ rel)]⟩ := by
    simp [handle_download_request, if_neg hpne, hext, hrel, hA]
  have hBeq : handle_download_request p envB =
      ⟨Field.longF 1 :: Field.longF envB.localContent.length ::
         (chunks1024 envB.localContent).map Field.raw, [], [],
       [Action.openFile (envB.home ++ str "/S1/" ++ rel)]⟩ := by
    simp [handle_download_request, if_neg hpne, hext, hrel, hB]
  refine ⟨⟨by rw [hAeq], ?_⟩, by rw [hBeq], chunks1024_join _, chunks1024_le _⟩
  rw [hAeq]
  show ∀ f ∈ (errFrame (str "EFile not found")).tail, isLongField f = false
  decide

theorem C6_local_retrieve_witness :
    afterLastDot (str "~S1/a.c") = some (str "c") ∧
    afterSubstr (str "S1/") (str "~S1/a.c") = some (str "a.c") ∧
    c6EnvA.localFileExists = false ∧
    c6EnvB.localFileExists = true ∧
    (((handle_download_request (str "~S1/a.c") c6EnvA).client =
        errFrame (str "EFile not found") ∧
      ∀ f ∈ ((handle_download_request (str "~S1/a.c") c6EnvA).client).tail,
        isLongField f = false) ∧
     ((handle_download_request (str "~S1/a.c") c6EnvB).client =
        Field.longF 1 :: Field.longF c6EnvB.localContent.length ::
          (chunks1024 c6EnvB.localContent).map Field.raw ∧
      (chunks1024 c6EnvB.localContent).flatten = c6EnvB.localContent ∧
      ∀ ch ∈ chunks1024 c6EnvB.localContent, ch.length ≤ 1024)) :=
  ⟨by decide, by decide, rfl, rfl,
   C6_local_retrieve (str "~S1/a.c") (str "a.c") c6EnvA c6EnvB
     (by decide) (by decide) rfl rfl⟩

/-- C9: for a remote Delete the gateway sends `'R'`, the path length and the
unmodified virtual path to the backend; a non-empty backend response buffer
is relayed to the client verbatim (after the proceed status), and a
zero-byte backend response is replaced by the (truncated, non-empty)
`ENo response from storage server` text, never an empty buffer. -/
theorem C9_remote_delete (p extv : List Char) (prt : Nat) (envA envB : RmEnv)
    (hext : afterLastDot p = some extv) (hprt : targetPort extv = some prt)
    (hsA : envA.conn.socketOk = true) (hcA : envA.conn.connectOk = true)
    (hsB : envB.conn.socketOk = true) (hcB : envB.conn.connectOk = true)
    (hAr : envA.bkResponse ≠ []) (hBr : envB.bkResponse = []) :
    ((handle_remove_request p envA).backend =
        [Field.cmd 'R', Field.intF p.length, Field.raw p] ∧
      (handle_remove_request p envA).client =
        [Field.longF 1, Field.raw envA.bkResponse]) ∧
    ((handle_remove_request p envB).backend =
        [Field.cmd 'R', Field.intF p.length, Field.raw p] ∧
      (handle_remove_request p envB).client =
        [Field.longF 1, Field.raw (cbytes "ENo response from storage server" 31)] ∧
      cbytes "ENo response from storage server" 31 ≠ []) := by
  have hpne : p ≠ [] := by
    intro h
    rw [h] at hext
    simp [afterLastDot] at hext
  have hnec : extv ≠ str "c" := by
    intro h
    rw [h, show targetPort (str "c") = none from by decide] at hprt
    exact Option.noConfusion hprt
  have hconnA : connect_to_target_server prt envA.conn =
      ([], [Action.connectBackend prt], true) := by
    unfold connect_to_target_server
    rw [hsA, hcA]
    simp
  have hconnB : connect_to_target_server prt envB.conn =
      ([], [Action.connectBackend prt], true) := by
    unfold connect_to_target_server
    rw [hsB, hcB]
    simp
  have hAeq : handle_remove_request p envA =
      ⟨[Field.longF 1, Field.raw envA.bkResponse],
       [Field.cmd 'R', Field.intF p.length, Field.raw p],
       [Field.raw envA.bkResponse], [Action.connectBackend prt]⟩ := by
    simp [handle_remove_request, if_neg hpne, hext, if_neg hnec, hprt,
      hconnA, if_neg hAr]
  have hBeq : handle_remove_request p envB =
      ⟨[Field.longF 1, Field.raw (cbytes "ENo response from storage server" 31)],
       [Field.cmd 'R', Field.intF p.length, Field.raw p],
       [], [Action.connectBackend prt]⟩ := by
    simp [handle_remove_request, if_neg hpne, hext, if_neg hnec, hprt,
      hconnB, hBr]
  exact ⟨⟨by rw [hAeq], by rw [hAeq]⟩,
         by rw [hBeq], by rw [hBeq], by decide⟩

theorem C9_remote_delete_witness :
    afterLastDot (str "~S1/a.pdf") = some (str "pdf") ∧
    targetPort (str "pdf") = some PORT_S2 ∧
    c9EnvA.conn.socketOk = true ∧ c9EnvA.conn.connectOk = true ∧
    c9EnvB.conn.socketOk = true ∧ c9EnvB.conn.connectOk = true ∧
    c9EnvA.bkResponse ≠ [] ∧ c9EnvB.bkResponse = [] ∧
    (((handle_remove_request (str "~S1/a.pdf") c9EnvA).backend =
        [Field.cmd 'R', Field.intF (str "~S1/a.pdf").length,
         Field.raw (str "~S1/a.pdf")] ∧
      (handle_remove_request (str "~S1/a.pdf") c9EnvA).client =
        [Field.longF 1, Field.raw c9EnvA.bkResponse]) ∧
     ((handle_remove_request (str "~S1/a.pdf") c9EnvB).backend =
        [Field.cmd 'R', Field.intF (str "~S1/a.pdf").length,
         Field.raw (str "~S1/a.pdf")] ∧
      (handle_remove_request (str "~S1/a.pdf") c9EnvB).client =
        [Field.longF 1, Field.raw (cbytes "ENo response from storage server" 31)] ∧
      cbytes "ENo response from storage server" 31 ≠ [])) :=
  ⟨by decide, by decide, rfl, rfl, rfl, rfl, by decide, rfl,
   C9_remote_delete (str "~S1/a.pdf") (str "pdf") PORT_S2 c9EnvA c9EnvB
     (by decide) (by decide) rfl rfl rfl rfl (by decide) rfl⟩

/-- C10: a Delete of a `.zip` path can never succeed even with S4 up and
reachable: S4's dispatcher handles only `'U'`, `'D'` and `'L'` and sends
nothing for `'R'`, so the gateway's `recv` yields zero bytes and the client
always receives the no-response error, never the success message. -/
theorem C10_zip_delete_never_succeeds (p : List Char) (s4env : S4Env)
    (env : RmEnv)
    (hext : afterLastDot p = some (str "zip"))
    (hs : env.conn.socketOk = true) (hc : env.conn.connectOk = true)
    (hresp : env.bkResponse = wireBytes (s4_dispatch 'R' s4env)) :
    s4_dispatch 'R' s4env = [] ∧
    (handle_remove_request p env).client =
      [Field.longF 1, Field.raw (cbytes "ENo response from storage server" 31)] ∧
    Field.raw (cbytes "SFile deleted successfully" 26) ∉
      (handle_remove_request p env).client := by
  have hdisp : s4_dispatch 'R' s4env = [] := rfl
  have hBr : env.bkResponse = [] := by
    rw [hresp, hdisp]
    rfl
  have hpne : p ≠ [] := by
    intro h
    rw [h] at hext
    simp [afterLastDot] at hext
  have hconn : connect_to_target_server PORT_S4 env.conn =
      ([], [Action.connectBackend PORT_S4], true) := by
    unfold connect_to_target_server
    rw [hs, hc]
    simp
  have heq : handle_remove_request p env =
      ⟨[Field.longF 1, Field.raw (cbytes "ENo response from storage server" 31)],
       [Field.cmd 'R', Field.intF p.length, Field.raw p],
       [], [Action.connectBackend PORT_S4]⟩ := by
    simp [handle_remove_request, if_neg hpne, hext,
      if_neg (show str "zip" ≠ str "c" from by decide),
      show targetPort (str "zip") = some PORT_S4 from by decide,
      hconn, hBr]
  refine ⟨hdisp, by rw [heq], ?_⟩
  rw [heq]
  show Field.raw (cbytes "SFile deleted successfully" 26) ∉
    [Field.longF 1, Field.raw (cbytes "ENo response from storage server" 31)]
  decide

theorem C10_zip_delete_never_succeeds_witness :
    afterLastDot (str "~S1/b.zip") = some (str "zip") ∧
    c10RmEnv.conn.socketOk = true ∧ c10RmEnv.conn.connectOk = true ∧
    c10RmEnv.bkResponse = wireBytes (s4_dispatch 'R' c10S4Env) ∧
    (s4_dispatch 'R' c10S4Env = [] ∧
     (handle_remove_request (str "~S1/b.zip") c10RmEnv).client =
       [Field.longF 1, Field.raw (cbytes "ENo response from storage server" 31)] ∧
     Field.raw (cbytes "SFile deleted successfully" 26) ∉
       (handle_remove_request (str "~S1/b.zip") c10RmEnv).client) :=
  ⟨by decide, rfl, rfl, rfl,
   C10_zip_delete_never_succeeds (str "~S1/b.zip") c10S4Env c10RmEnv
     (by decide) rfl rfl rfl⟩

/-- C1 counterexample: a Store of `a.exe` (unsupported extension) does not
produce an unsupported-type error — the handler's `result` stays `0` and the
client gets the generic `Error sending file to destination server.` text
(it does perform no file I/O and open no backend connection). -/
theorem C1_counterexample :
    (handle_upload_request (str "a.exe") (str "~S1/d") (str "xy") upCexEnv).client =
      [Field.raw (cbytes "Error sending file to destination server." 42)] ∧
    (handle_upload_request (str "a.exe") (str "~S1/d") (str "xy") upCexEnv).client ≠
      [Field.raw (cbytes "EUnsupported file type" 22)] ∧
    (handle_upload_request (str "a.exe") (str "~S1/d") (str "xy") upCexEnv).actions = [] ∧
    (handle_upload_request (str "a.exe") (str "~S1/d") (str "xy") upCexEnv).backend = [] := by
  exact ⟨by decide, by decide, by decide, by decide⟩

/-- C1 (amended): routing is by extension on all three operations — `.c`
requests are handled on local storage with no backend traffic (Retrieve
opens the local file, Delete unlinks it, Store writes it), a supported
remote extension opens a connection to that extension's node (Retrieve
forwards `'D'`, Delete forwards `'R'`, Store forwards `'U'` with the
rewritten destination path), and unsupported extensions are rejected
without any file I/O or backend connection on Retrieve, Delete and Store
alike — but on Store the rejection message is the generic
`Error sending file to destination server.` text, not the
`EUnsupported file type` error that Retrieve and Delete send. -/
theorem C1_routing (pl rell pr pu fn dp fd pm relm pd fc fr : List Char)
    (extr extu : List Char) (prt : Nat)
    (denvL denvR denvU : DlEnv) (renvU renvM renvR2 : RmEnv)
    (uenv uenvC uenvR : UpEnv)
    (hl : afterLastDot pl = some (str "c"))
    (hrel : afterSubstr (str "S1/") pl = some rell)
    (hlex : denvL.localFileExists = true)
    (hr : afterLastDot pr = some extr) (hprt : targetPort extr = some prt)
    (hrs : denvR.conn.socketOk = true)
    (hu : afterLastDot pu = some extu)
    (hunsc : extu ≠ str "c") (hunsp : extu ≠ str "pdf")
    (hunst : extu ≠ str "txt") (hunsz : extu ≠ str "zip")
    (hfn : afterLastDot fn = some extu)
    (hm : afterLastDot pm = some (str "c"))
    (hmv : removeLocalValid pm = true)
    (hmrel : afterSubstr (str "S1/") pm = some relm)
    (hd : afterLastDot pd = some extr)
    (hrs2 : renvR2.conn.socketOk = true) (hrc2 : renvR2.conn.connectOk = true)
    (hfc : afterLastDot fc = some (str "c")) (hcf : uenvC.fopenOk = true)
    (hfr : afterLastDot fr = some extr)
    (hus : uenvR.conn.socketOk = true) (huc : uenvR.conn.connectOk = true)
    (hdp : (str "~S1").isPrefixOf dp = true) :
    ((handle_download_request pl denvL).actions =
        [Action.openFile (denvL.home ++ str "/S1/" ++ rell)] ∧
      (handle_download_request pl denvL).backend = []) ∧
    Action.connectBackend prt ∈ (handle_download_request pr denvR).actions ∧
    handle_download_request pu denvU =
      ⟨[Field.raw (cbytes "EUnsupported file type" 22)], [], [], []⟩ ∧
    handle_remove_request pu renvU =
      ⟨[Field.raw (cbytes "EUnsupported file type" 22)], [], [], []⟩ ∧
    handle_upload_request fn dp fd uenv =
      ⟨[Field.raw (cbytes "Error sending file to destination server." 42)],
       [], [], []⟩ ∧
    ((handle_remove_request pm renvM).client =
        [Field.longF 1, Field.raw (rmRespBytes renvM.rmResult)] ∧
      (handle_remove_request pm renvM).actions =
        [Action.removeFile (renvM.home ++ str "/S1/" ++ relm)] ∧
      (handle_remove_request pm renvM).backend = []) ∧
    ((handle_remove_request pd renvR2).backend =
        [Field.cmd 'R', Field.intF pd.length, Field.raw pd] ∧
      (handle_remove_request pd renvR2).actions = [Action.connectBackend prt]) ∧
    ((handle_upload_request fc dp fd uenvC).client =
        [Field.raw (cbytes "File uploaded successfully." 28)] ∧
      (handle_upload_request fc dp fd uenvC).actions =
        [Action.shellMkdirP,
         Action.writeFile (uenvC.home ++ str "/S1" ++ dp.drop 3 ++ '/' :: fc)] ∧
      (handle_upload_request fc dp fd uenvC).backend = []) ∧
    ((handle_upload_request fr dp fd uenvR).backend =
        [Field.cmd 'U', Field.intF (dp.drop 3 ++ '/' :: fr).length,
         Field.raw (dp.drop 3 ++ '/' :: fr), Field.longF fd.length,
         Field.raw fd] ∧
      (handle_upload_request fr dp fd uenvR).actions =
        [Action.connectBackend prt]) := by
  have hplne : pl ≠ [] := by
    intro h
    rw [h] at hl
    simp [afterLastDot] at hl
  have hprne : pr ≠ [] := by
    intro h
    rw [h] at hr
    simp [afterLastDot] at hr
  have hpune : pu ≠ [] := by
    intro h
    rw [h] at hu
    simp [afterLastDot] at hu
  have hpmne : pm ≠ [] := by
    intro h
    rw [h] at hm
    simp [afterLastDot] at hm
  have hpdne : pd ≠ [] := by
    intro h
    rw [h] at hd
    simp [afterLastDot] at hd
  have huns : targetPort extu = none := by
    unfold targetPort
    rw [if_neg hunsp, if_neg hunst, if_neg hunsz]
  have hnec : extr ≠ str "c" := by
    intro h
    rw [h, show targetPort (str "c") = none from by decide] at hprt
    exact Option.noConfusion hprt
  have hLeq : handle_download_request pl denvL =
      ⟨Field.longF 1 :: Field.longF denvL.localContent.length ::
         (chunks1024 denvL.localContent).map Field.raw, [], [],
       [Action.openFile (denvL.home ++ str "/S1/" ++ rell)]⟩ := by
    simp [handle_download_request, if_neg hplne, hl, hrel, hlex]
  have hMeq : handle_remove_request pm renvM =
      ⟨[Field.longF 1, Field.raw (rmRespBytes renvM.rmResult)], [], [],
       [Action.removeFile (renvM.home ++ str "/S1/" ++ relm)]⟩ := by
    simp [handle_remove_request, if_neg hpmne, hm, hmv, hmrel]
  have hconn2 : connect_to_target_server prt renvR2.conn =
      ([], [Action.connectBackend prt], true) := by
    unfold connect_to_target_server
    rw [hrs2, hrc2]
    simp
  have hDel : (handle_remove_request pd renvR2).backend =
        [Field.cmd 'R', Field.intF pd.length, Field.raw pd] ∧
      (handle_remove_request pd renvR2).actions = [Action.connectBackend prt] := by
    by_cases hbr : renvR2.bkResponse = []
    · constructor <;>
        simp [handle_remove_request, if_neg hpdne, hd, if_neg hnec, hprt,
          hconn2, hbr]
    · constructor <;>
        simp [handle_remove_request, if_neg hpdne, hd, if_neg hnec, hprt,
          hconn2, if_neg hbr]
  have hm1 : (afterLastDot fc).map (fun e => '.' :: e) = some (str ".c") := by
    rw [hfc]
    decide
  have hCeq : handle_upload_request fc dp fd uenvC =
      ⟨[Field.raw (cbytes "File uploaded successfully." 28)], [], [],
       [Action.shellMkdirP,
        Action.writeFile (uenvC.home ++ str "/S1" ++ dp.drop 3 ++ '/' :: fc)]⟩ := by
    simp [handle_upload_request, hm1, hcf,
      show (str ".c" : List Char) ≠ str ".pdf" from by decide,
      show (str ".c" : List Char) ≠ str ".txt" from by decide,
      show (str ".c" : List Char) ≠ str ".zip" from by decide]
  have hsend : ∀ (port : Nat) (md : List Char),
      send_file_to_server port fd md uenvR.conn =
        (1, [Field.cmd 'U', Field.intF md.length, Field.raw md,
             Field.longF fd.length, Field.raw fd],
         [Action.connectBackend port]) := by
    intro port md
    unfold send_file_to_server
    rw [hus, huc]
    simp
  have hStoreR : (handle_upload_request fr dp fd uenvR).backend =
        [Field.cmd 'U', Field.intF (dp.drop 3 ++ '/' :: fr).length,
         Field.raw (dp.drop 3 ++ '/' :: fr), Field.longF fd.length,
         Field.raw fd] ∧
      (handle_upload_request fr dp fd uenvR).actions =
        [Action.connectBackend prt] := by
    have hcases : (extr = str "pdf" ∧ prt = PORT_S2) ∨
        (extr = str "txt" ∧ prt = PORT_S3) ∨
        (extr = str "zip" ∧ prt = PORT_S4) := by
      unfold targetPort at hprt
      by_cases h1 : extr = str "pdf"
      · rw [if_pos h1] at hprt
        exact Or.inl ⟨h1, (Option.some.inj hprt).symm⟩
      · rw [if_neg h1] at hprt
        by_cases h2 : extr = str "txt"
        · rw [if_pos h2] at hprt
          exact Or.inr (Or.inl ⟨h2, (Option.some.inj hprt).symm⟩)
        · rw [if_neg h2] at hprt
          by_cases h3 : extr = str "zip"
          · rw [if_pos h3] at hprt
            exact Or.inr (Or.inr ⟨h3, (Option.some.inj hprt).symm⟩)
          · rw [if_neg h3] at hprt
            exact Option.noConfusion hprt
    rcases hcases with ⟨he, hp⟩ | ⟨he, hp⟩ | ⟨he, hp⟩ <;> subst hp <;>
      rw [he] at hfr
    · have hm2 : (afterLastDot fr).map (fun e => '.' :: e) =
          some (str ".pdf") := by
        rw [hfr]
        decide
      constructor <;> simp [handle_upload_request, hm2, hdp, hsend]
    · have hm2 : (afterLastDot fr).map (fun e => '.' :: e) =
          some (str ".txt") := by
        rw [hfr]
        decide
      constructor <;>
        simp [handle_upload_request, hm2, hdp, hsend,
          show (str ".txt" : List Char) ≠ str ".pdf" from by decide]
    · have hm2 : (afterLastDot fr).map (fun e => '.' :: e) =
          some (str ".zip") := by
        rw [hfr]
        decide
      constructor <;>
        simp [handle_upload_request, hm2, hdp, hsend,
          show (str ".zip" : List Char) ≠ str ".pdf" from by decide,
          show (str ".zip" : List Char) ≠ str ".txt" from by decide]
  refine ⟨⟨by rw [hLeq], by rw [hLeq]⟩, ?_, ?_, ?_, ?_,
    ⟨by rw [hMeq], by rw [hMeq], by rw [hMeq]⟩, hDel,
    ⟨by rw [hCeq], by rw [hCeq], by rw [hCeq]⟩, hStoreR⟩
  · cases hcr : denvR.conn.connectOk with
    | false =>
      have hconn : connect_to_target_server prt denvR.conn =
          (errFrame (str "EConnection is not reliable"),
           [Action.connectBackend prt], false) := by
        unfold connect_to_target_server
        rw [hrs, hcr]
        simp
      simp [handle_download_request, if_neg hprne, hr, if_neg hnec, hprt, hconn]
    | true =>
      have hconn : connect_to_target_server prt denvR.conn =
          ([], [Action.connectBackend prt], true) := by
        unfold connect_to_target_server
        rw [hrs, hcr]
        simp
      by_cases hbs : denvR.bkStatus = -1
      · simp [handle_download_request, if_neg hprne, hr, if_neg hnec, hprt,
          hconn, hbs]
      · simp [handle_download_request, if_neg hprne, hr, if_neg hnec, hprt,
          hconn, hbs]
  · simp [handle_download_request, if_neg hpune, hu, if_neg hunsc, huns]
  · simp [handle_remove_request, if_neg hpune, hu, if_neg hunsc, huns]
  · have hm : (afterLastDot fn).map (fun e => '.' :: e) = some ('.' :: extu) := by
      rw [hfn]
      rfl
    have hb1 : ('.' :: extu) ≠ str ".pdf" := by
      rw [show (str ".pdf" : List Char) = '.' :: str "pdf" from by decide]
      exact cons_ne_of_ne hunsp
    have hb2 : ('.' :: extu) ≠ str ".txt" := by
      rw [show (str ".txt" : List Char) = '.' :: str "txt" from by decide]
      exact cons_ne_of_ne hunst
    have hb3 : ('.' :: extu) ≠ str ".zip" := by
      rw [show (str ".zip" : List Char) = '.' :: str "zip" from by decide]
      exact cons_ne_of_ne hunsz
    have hb4 : ('.' :: extu) ≠ str ".c" := by
      rw [show (str ".c" : List Char) = '.' :: str "c" from by decide]
      exact cons_ne_of_ne hunsc
    simp [handle_upload_request, hm, hb1, hb2, hb3, hb4]

theorem C1_routing_witness :
    afterLastDot (str "~S1/a.c") = some (str "c") ∧
    afterSubstr (str "S1/") (str "~S1/a.c") = some (str "a.c") ∧
    c1EnvL.localFileExists = true ∧
    afterLastDot (str "~S1/b.pdf") = some (str "pdf") ∧
    targetPort (str "pdf") = some PORT_S2 ∧
    c1EnvR.conn.socketOk = true ∧
    afterLastDot (str "~S1/c.exe") = some (str "exe") ∧
    str "exe" ≠ str "c" ∧ str "exe" ≠ str "pdf" ∧
    str "exe" ≠ str "txt" ∧ str "exe" ≠ str "zip" ∧
    afterLastDot (str "c.exe") = some (str "exe") ∧
    afterLastDot (str "~S1/c.c") = some (str "c") ∧
    removeLocalValid (str "~S1/c.c") = true ∧
    afterSubstr (str "S1/") (str "~S1/c.c") = some (str "c.c") ∧
    afterLastDot (str "~S1/d.pdf") = some (str "pdf") ∧
    c1RmR.conn.socketOk = true ∧ c1RmR.conn.connectOk = true ∧
    afterLastDot (str "m.c") = some (str "c") ∧
    c1UpC.fopenOk = true ∧
    afterLastDot (str "n.pdf") = some (str "pdf") ∧
    c1UpR.conn.socketOk = true ∧ c1UpR.conn.connectOk = true ∧
    (str "~S1").isPrefixOf (str "~S1/d") = true ∧
    (((handle_download_request (str "~S1/a.c") c1EnvL).actions =
        [Action.openFile (c1EnvL.home ++ str "/S1/" ++ str "a.c")] ∧
      (handle_download_request (str "~S1/a.c") c1EnvL).backend = []) ∧
     Action.connectBackend PORT_S2 ∈
       (handle_download_request (str "~S1/b.pdf") c1EnvR).actions ∧
     handle_download_request (str "~S1/c.exe") c1EnvU =
       ⟨[Field.raw (cbytes "EUnsupported file type" 22)], [], [], []⟩ ∧
     handle_remove_request (str "~S1/c.exe") c1RmU =
       ⟨[Field.raw (cbytes "EUnsupported file type" 22)], [], [], []⟩ ∧
     handle_upload_request (str "c.exe") (str "~S1/d") (str "xy") c1Up =
       ⟨[Field.raw (cbytes "Error sending file to destination server." 42)],
        [], [], []⟩ ∧
     ((handle_remove_request (str "~S1/c.c") c1RmM).client =
        [Field.longF 1, Field.raw (rmRespBytes c1RmM.rmResult)] ∧
      (handle_remove_request (str "~S1/c.c") c1RmM).actions =
        [Action.removeFile (c1RmM.home ++ str "/S1/" ++ str "c.c")] ∧
      (handle_remove_request (str "~S1/c.c") c1RmM).backend = []) ∧
     ((handle_remove_request (str "~S1/d.pdf") c1RmR).backend =
        [Field.cmd 'R', Field.intF (str "~S1/d.pdf").length,
         Field.raw (str "~S1/d.pdf")] ∧
      (handle_remove_request (str "~S1/d.pdf") c1RmR).actions =
        [Action.connectBackend PORT_S2]) ∧
     ((handle_upload_request (str "m.c") (str "~S1/d") (str "xy") c1UpC).client =
        [Field.raw (cbytes "File uploaded successfully." 28)] ∧
      (handle_upload_request (str "m.c") (str "~S1/d") (str "xy") c1UpC).actions =
        [Action.shellMkdirP,
         Action.writeFile
           (c1UpC.home ++ str "/S1" ++ (str "~S1/d").drop 3 ++ '/' :: str "m.c")] ∧
      (handle_upload_request (str "m.c") (str "~S1/d") (str "xy") c1UpC).backend = []) ∧
     ((handle_upload_request (str "n.pdf") (str "~S1/d") (str "xy") c1UpR).backend =
        [Field.cmd 'U',
         Field.intF ((str "~S1/d").drop 3 ++ '/' :: str "n.pdf").length,
         Field.raw ((str "~S1/d").drop 3 ++ '/' :: str "n.pdf"),
         Field.longF (str "xy").length, Field.raw (str "xy")] ∧
      (handle_upload_request (str "n.pdf") (str "~S1/d") (str "xy") c1UpR).actions =
        [Action.connectBackend PORT_S2])) :=
  ⟨by decide, by decide, rfl, by decide, by decide, rfl, by decide,
   by decide, by decide, by decide, by decide, by decide, by decide,
   by decide, by decide, by decide, rfl, rfl, by decide, rfl, by decide,
   rfl, rfl, by decide,
   C1_routing (str "~S1/a.c") (str "a.c") (str "~S1/b.pdf") (str "~S1/c.exe")
     (str "c.exe") (str "~S1/d") (str "xy") (str "~S1/c.c") (str "c.c")
     (str "~S1/d.pdf") (str "m.c") (str "n.pdf") (str "pdf") (str "exe")
     PORT_S2 c1EnvL c1EnvR c1EnvU c1RmU c1RmM c1RmR c1Up c1UpC c1UpR
     (by decide) (by decide) rfl (by decide) (by decide) rfl (by decide)
     (by decide) (by decide) (by decide) (by decide) (by decide) (by decide)
     (by decide) (by decide) (by decide) rfl rfl (by decide) rfl (by decide)
     rfl rfl (by decide)⟩

/-- C3 counterexample: on a remote Retrieve whose backend reports
file-not-found, the client receives four fields — the proceed status `1`
sent right after the backend connect, then the failure status, the message
length and the message — which is neither of the two documented shapes
(a field is duplicated/inserted before the real status). -/
theorem C3_counterexample :
    (handle_download_request (str "~S1/a.pdf") dlRemoteNfEnv).client =
      [Field.longF 1, Field.longF (-1),
       Field.intF (str "EFile not found").length,
       Field.raw (str "EFile not found")] ∧
    ¬ documentedShape
        [Field.longF 1, Field.longF (-1),
         Field.intF (str "EFile not found").length,
         Field.raw (str "EFile not found")] := by
  constructor
  · decide
  · rintro (⟨sz, chunks, h⟩ | ⟨msg, h⟩)
    · cases chunks with
      | nil => simp at h
      | cons c1 cs =>
        cases cs with
        | nil => simp at h
        | cons c2 cs2 => simp at h
    · simp at h

/-- C3 (amended): the local Retrieve leg does follow one of the two
documented shapes; but a remote Retrieve prepends the proceed status `1`
sent right after the backend connect — on backend failure the client sees
proceed status, failure status, message length, message (four fields) while
on backend success the proceed status doubles as the success status and the
shape matches; and both Delete legs answer with a proceed status followed by
a single raw text with no length field. -/
theorem C3_field_order (pl pr pm pd extr extd : List Char) (prtR prtD : Nat)
    (envL envF envS : DlEnv) (envM envD : RmEnv)
    (hl : afterLastDot pl = some (str "c"))
    (hr : afterLastDot pr = some extr) (hprtR : targetPort extr = some prtR)
    (hFs : envF.conn.socketOk = true) (hFc : envF.conn.connectOk = true)
    (hFst : envF.bkStatus = -1)
    (hSs : envS.conn.socketOk = true) (hSc : envS.conn.connectOk = true)
    (hSst : envS.bkStatus ≠ -1)
    (hm : afterLastDot pm = some (str "c")) (hmv : removeLocalValid pm = true)
    (hd : afterLastDot pd = some extd) (hprtD : targetPort extd = some prtD)
    (hDs : envD.conn.socketOk = true) (hDc : envD.conn.connectOk = true)
    (hDne : envD.bkResponse ≠ []) :
    documentedShape (handle_download_request pl envL).client ∧
    (handle_download_request pr envF).client =
      Field.longF 1 :: errFrame envF.bkMsg ∧
    (handle_download_request pr envS).client =
      [Field.longF 1, Field.longF envS.bkSize] ++
        (chunks1024 envS.bkData).map Field.raw ∧
    (handle_remove_request pm envM).client =
      [Field.longF 1, Field.raw (rmRespBytes envM.rmResult)] ∧
    (handle_remove_request pd envD).client =
      [Field.longF 1, Field.raw envD.bkResponse] := by
  have hplne : pl ≠ [] := by
    intro h
    rw [h] at hl
    simp [afterLastDot] at hl
  have hprne : pr ≠ [] := by
    intro h
    rw [h] at hr
    simp [afterLastDot] at hr
  have hpmne : pm ≠ [] := by
    intro h
    rw [h] at hm
    simp [afterLastDot] at hm
  have hpdne : pd ≠ [] := by
    intro h
    rw [h] at hd
    simp [afterLastDot] at hd
  have hnecR : extr ≠ str "c" := by
    intro h
    rw [h, show targetPort (str "c") = none from by decide] at hprtR
    exact Option.noConfusion hprtR
  have hnecD : extd ≠ str "c" := by
    intro h
    rw [h, show targetPort (str "c") = none from by decide] at hprtD
    exact Option.noConfusion hprtD
  have hconnF : connect_to_target_server prtR envF.conn =
      ([], [Action.connectBackend prtR], true) := by
    unfold connect_to_target_server
    rw [hFs, hFc]
    simp
  have hconnS : connect_to_target_server prtR envS.conn =
      ([], [Action.connectBackend prtR], true) := by
    unfold connect_to_target_server
    rw [hSs, hSc]
    simp
  have hconnD : connect_to_target_server prtD envD.conn =
      ([], [Action.connectBackend prtD], true) := by
    unfold connect_to_target_server
    rw [hDs, hDc]
    simp
  refine ⟨?_, ?_, ?_, ?_, ?_⟩
  · rcases hsub : afterSubstr (str "S1/") pl with _ | rel
    · have hc : (handle_download_request pl envL).client =
          errFrame (str "EInvalid path format") := by
        simp [handle_download_request, if_neg hplne, hl, hsub]
      rw [hc]
      exact Or.inr ⟨str "EInvalid path format", rfl⟩
    · cases hex : envL.localFileExists with
      | false =>
        have hc : (handle_download_request pl envL).client =
            errFrame (str "EFile not found") := by
          simp [handle_download_request, if_neg hplne, hl, hsub, hex]
        rw [hc]
        exact Or.inr ⟨str "EFile not found", rfl⟩
      | true =>
        have hc : (handle_download_request pl envL).client =
            Field.longF 1 :: Field.longF envL.localContent.length ::
              (chunks1024 envL.localContent).map Field.raw := by
          simp [handle_download_request, if_neg hplne, hl, hsub, hex]
        rw [hc]
        exact Or.inl ⟨envL.localContent.length, chunks1024 envL.localContent, rfl⟩
  · simp [handle_download_request, if_neg hprne, hr, if_neg hnecR, hprtR,
      hconnF, hFst]
  · simp [handle_download_request, if_neg hprne, hr, if_neg hnecR, hprtR,
      hconnS, hSst]
  · simp [handle_remove_request, if_neg hpmne, hm, hmv]
  · simp [handle_remove_request, if_neg hpdne, hd, if_neg hnecD, hprtD,
      hconnD, if_neg hDne]

theorem C3_field_order_witness :
    afterLastDot (str "~S1/a.c") = some (str "c") ∧
    afterLastDot (str "~S1/b.pdf") = some (str "pdf") ∧
    targetPort (str "pdf") = some PORT_S2 ∧
    c3EnvF.conn.socketOk = true ∧ c3EnvF.conn.connectOk = true ∧
    c3EnvF.bkStatus = -1 ∧
    c3EnvS.conn.socketOk = true ∧ c3EnvS.conn.connectOk = true ∧
    c3EnvS.bkStatus ≠ -1 ∧
    afterLastDot (str "~S1/c.c") = some (str "c") ∧
    removeLocalValid (str "~S1/c.c") = true ∧
    afterLastDot (str "~S1/d.txt") = some (str "txt") ∧
    targetPort (str "txt") = some PORT_S3 ∧
    c3EnvD.conn.socketOk = true ∧ c3EnvD.conn.connectOk = true ∧
    c3EnvD.bkResponse ≠ [] ∧
    (documentedShape (handle_download_request (str "~S1/a.c") c3EnvL).client ∧
     (handle_download_request (str "~S1/b.pdf") c3EnvF).client =
       Field.longF 1 :: errFrame c3EnvF.bkMsg ∧
     (handle_download_request (str "~S1/b.pdf") c3EnvS).client =
       [Field.longF 1, Field.longF c3EnvS.bkSize] ++
         (chunks1024 c3EnvS.bkData).map Field.raw ∧
     (handle_remove_request (str "~S1/c.c") c3EnvM).client =
       [Field.longF 1, Field.raw (rmRespBytes c3EnvM.rmResult)] ∧
     (handle_remove_request (str "~S1/d.txt") c3EnvD).client =
       [Field.longF 1, Field.raw c3EnvD.bkResponse]) :=
  ⟨by decide, by decide, by decide, rfl, rfl, rfl, rfl, rfl, by decide,
   by decide, by decide, by decide, by decide, rfl, rfl, by decide,
   C3_field_order (str "~S1/a.c") (str "~S1/b.pdf") (str "~S1/c.c")
     (str "~S1/d.txt") (str "pdf") (str "txt") PORT_S2 PORT_S3
     c3EnvL c3EnvF c3EnvS c3EnvM c3EnvD
     (by decide) (by decide) (by decide) rfl rfl rfl rfl rfl (by decide)
     (by decide) (by decide) (by decide) (by decide) rfl rfl (by decide)⟩

/-- C7 counterexample: when `mkdir server_temp` fails in S2's tar handler
(for example because the directory survived an earlier request), the
backend sends a single bare truncated text with no status field — so the
backend does not always send a status field before the size field, and
there is no message length for the gateway to relay. -/
theorem C7_counterexample :
    s2_handle_downloadtar (str "pdf") s2TarCexEnv =
      [Field.raw (cbytes "ECould not create temp directory" 31)] ∧
    ¬ backendTarShape [Field.raw (cbytes "ECould not create temp directory" 31)] := by
  constructor
  · decide
  · rintro (⟨msg, h⟩ | ⟨sz, chunks, h⟩)
    · simp at h
    · cases chunks with
      | nil => simp at h
      | cons c1 cs => simp at h

/-- C7 (amended): provided S2's temp-directory creation and tar command
succeed, the backend reply is framed — a status field first, either
`-1` with message length and message, or `1` with size and content — and
the gateway propagates the backend status to the client before anything
else and reads the backend's size field only in the non-`-1` case,
relaying message length and message in the failure case. -/
theorem C7_archive_status (ft ftg : List Char) (envS2 : S2TarEnv)
    (envF envS : TarEnv)
    (hmk : envS2.mkdirOk = true) (htc : envS2.tarCmdOk = true)
    (hg : ftg = str "pdf" ∨ ftg = str "txt")
    (hFs : envF.conn.socketOk = true) (hFc : envF.conn.connectOk = true)
    (hFst : envF.bkStatus1 = -1)
    (hSs : envS.conn.socketOk = true) (hSc : envS.conn.connectOk = true)
    (hSst : envS.bkStatus1 = 1) (hSsz : 0 ≤ envS.bkTarSize) :
    backendTarShape (s2_handle_downloadtar ft envS2) ∧
    ((handle_downloadtar_request ftg envF).client =
        [Field.longF (-1), Field.intF envF.bkMsg.length, Field.raw envF.bkMsg] ∧
      (handle_downloadtar_request ftg envF).bkReads =
        [Field.longF (-1), Field.intF envF.bkMsg.length, Field.raw envF.bkMsg]) ∧
    ((handle_downloadtar_request ftg envS).client =
        [Field.longF 1, Field.longF envS.bkTarSize] ++
          (chunks1024 envS.bkData).map Field.raw ∧
      (handle_downloadtar_request ftg envS).bkReads =
        [Field.longF 1, Field.longF envS.bkTarSize] ++
          (chunks1024 envS.bkData).map Field.raw) := by
  have hS2 : backendTarShape (s2_handle_downloadtar ft envS2) := by
    unfold s2_handle_downloadtar
    by_cases h1 : ft = str "pdf"
    · rw [if_neg (fun hh => hh h1)]
      cases hdir : envS2.dirExists with
      | false =>
        rw [if_pos (by simp [hdir])]
        exact Or.inl ⟨_, rfl⟩
      | true =>
        rw [if_neg (by simp [hdir])]
        cases hpf : envS2.hasPdfFiles with
        | false =>
          rw [if_pos (by simp [hpf])]
          exact Or.inl ⟨_, rfl⟩
        | true =>
          rw [if_neg (by simp [hpf]), if_neg (by simp [hmk]),
            if_neg (by simp [htc])]
          cases ho : envS2.tarOpenOk with
          | false =>
            rw [if_pos (by simp [ho])]
            exact Or.inl ⟨_, rfl⟩
          | true =>
            rw [if_neg (by simp [ho])]
            exact Or.inr ⟨_, _, rfl⟩
    · rw [if_pos h1]
      exact Or.inl ⟨_, rfl⟩
  have hconnF : ∀ prt, connect_to_target_server prt envF.conn =
      ([], [Action.connectBackend prt], true) := by
    intro prt
    unfold connect_to_target_server
    rw [hFs, hFc]
    simp
  have hconnS : ∀ prt, connect_to_target_server prt envS.conn =
      ([], [Action.connectBackend prt], true) := by
    intro prt
    unfold connect_to_target_server
    rw [hSs, hSc]
    simp
  refine ⟨hS2, ?_, ?_⟩
  · rcases hg with hg | hg <;> subst hg
    · constructor <;>
        simp [handle_downloadtar_request, hconnF, hFst,
          show (str "pdf" : List Char) ≠ [] from by decide,
          show str "pdf" ≠ str "c" from by decide]
    · constructor <;>
        simp [handle_downloadtar_request, hconnF, hFst,
          show (str "txt" : List Char) ≠ [] from by decide,
          show str "txt" ≠ str "c" from by decide,
          show str "txt" ≠ str "pdf" from by decide]
  · rcases hg with hg | hg <;> subst hg
    · constructor <;>
        simp [handle_downloadtar_request, hconnS, hSst,
          show ¬ envS.bkTarSize < 0 from by omega,
          show (str "pdf" : List Char) ≠ [] from by decide,
          show str "pdf" ≠ str "c" from by decide]
    · constructor <;>
        simp [handle_downloadtar_request, hconnS, hSst,
          show ¬ envS.bkTarSize < 0 from by omega,
          show (str "txt" : List Char) ≠ [] from by decide,
          show str "txt" ≠ str "c" from by decide,
          show str "txt" ≠ str "pdf" from by decide]

theorem C7_archive_status_witness :
    c7EnvS2.mkdirOk = true ∧ c7EnvS2.tarCmdOk = true ∧
    (str "pdf" = str "pdf" ∨ str "pdf" = str "txt") ∧
    c7EnvF.conn.socketOk = true ∧ c7EnvF.conn.connectOk = true ∧
    c7EnvF.bkStatus1 = -1 ∧
    c7EnvS.conn.socketOk = true ∧ c7EnvS.conn.connectOk = true ∧
    c7EnvS.bkStatus1 = 1 ∧ 0 ≤ c7EnvS.bkTarSize ∧
    (backendTarShape (s2_handle_downloadtar (str "zip") c7EnvS2) ∧
     ((handle_downloadtar_request (str "pdf") c7EnvF).client =
        [Field.longF (-1), Field.intF c7EnvF.bkMsg.length, Field.raw c7EnvF.bkMsg] ∧
      (handle_downloadtar_request (str "pdf") c7EnvF).bkReads =
        [Field.longF (-1), Field.intF c7EnvF.bkMsg.length, Field.raw c7EnvF.bkMsg]) ∧
     ((handle_downloadtar_request (str "pdf") c7EnvS).client =
        [Field.longF 1, Field.longF c7EnvS.bkTarSize] ++
          (chunks1024 c7EnvS.bkData).map Field.raw ∧
      (handle_downloadtar_request (str "pdf") c7EnvS).bkReads =
        [Field.longF 1, Field.longF c7EnvS.bkTarSize] ++
          (chunks1024 c7EnvS.bkData).map Field.raw)) :=
  ⟨rfl, rfl, Or.inl rfl, rfl, rfl, rfl, rfl, rfl, rfl, by decide,
   C7_archive_status (str "zip") (str "pdf") c7EnvS2 c7EnvF c7EnvS
     rfl rfl (Or.inl rfl) rfl rfl rfl rfl rfl rfl (by decide)⟩

/-- C8: only `c`, `pdf` and `txt` are archivable.  Any other token
(including `zip`) is rejected with the invalid-filetype error and the
handler performs no action at all — no backend connection, no local
storage access; by contrast `c` proceeds into the local pipeline
(it checks the S1 directory) and `pdf` opens a connection to S2. -/
theorem C8_archive_type_set (ft : List Char) (envz envc envp : TarEnv)
    (hft1 : ft ≠ str "c") (hft2 : ft ≠ str "pdf") (hft3 : ft ≠ str "txt")
    (hcdir : envc.s1DirExists = false)
    (hps : envp.conn.socketOk = true) (hpc : envp.conn.connectOk = true) :
    handle_downloadtar_request ft envz =
      ⟨[Field.raw (cbytes "EInvalid filetype (use: c, pdf, txt)" 35)], [], [], []⟩ ∧
    handle_downloadtar_request (str "zip") envz =
      ⟨[Field.raw (cbytes "EInvalid filetype (use: c, pdf, txt)" 35)], [], [], []⟩ ∧
    (handle_downloadtar_request (str "c") envc).actions =
      [Action.statDir (envc.home ++ str "/S1")] ∧
    Action.connectBackend PORT_S2 ∈
      (handle_downloadtar_request (str "pdf") envp).actions := by
  have hconn : connect_to_target_server PORT_S2 envp.conn =
      ([], [Action.connectBackend PORT_S2], true) := by
    unfold connect_to_target_server
    rw [hps, hpc]
    simp
  refine ⟨?_, ?_, ?_, ?_⟩
  · unfold handle_downloadtar_request
    rw [if_pos (Or.inr ⟨hft1, hft2, hft3⟩)]
  · unfold handle_downloadtar_request
    rw [if_pos (Or.inr (by decide))]
  · simp [handle_downloadtar_request, hcdir,
      show (str "c" : List Char) ≠ [] from by decide]
  · by_cases h1 : envp.bkStatus1 = -1
    · simp [handle_downloadtar_request, hconn, h1,
        show (str "pdf" : List Char) ≠ [] from by decide,
        show str "pdf" ≠ str "c" from by decide]
    · by_cases h2 : envp.bkTarSize < 0
      · simp [handle_downloadtar_request, hconn, h1, h2,
          show (str "pdf" : List Char) ≠ [] from by decide,
          show str "pdf" ≠ str "c" from by decide]
      · simp [handle_downloadtar_request, hconn, h1, h2,
          show (str "pdf" : List Char) ≠ [] from by decide,
          show str "pdf" ≠ str "c" from by decide]

theorem C8_archive_type_set_witness :
    str "exe" ≠ str "c" ∧ str "exe" ≠ str "pdf" ∧ str "exe" ≠ str "txt" ∧
    c8EnvC.s1DirExists = false ∧
    c8EnvP.conn.socketOk = true ∧ c8EnvP.conn.connectOk = true ∧
    (handle_downloadtar_request (str "exe") c8EnvZ =
       ⟨[Field.raw (cbytes "EInvalid filetype (use: c, pdf, txt)" 35)], [], [], []⟩ ∧
     handle_downloadtar_request (str "zip") c8EnvZ =
       ⟨[Field.raw (cbytes "EInvalid filetype (use: c, pdf, txt)" 35)], [], [], []⟩ ∧
     (handle_downloadtar_request (str "c") c8EnvC).actions =
       [Action.statDir (c8EnvC.home ++ str "/S1")] ∧
     Action.connectBackend PORT_S2 ∈
       (handle_downloadtar_request (str "pdf") c8EnvP).actions) :=
  ⟨by decide, by decide, by decide, rfl, rfl, rfl,
   C8_archive_type_set (str "exe") c8EnvZ c8EnvC c8EnvP
     (by decide) (by decide) (by decide) rfl rfl rfl⟩

end DFS
